import Mathlib

/-!
Verification development for the `python_sandbox` tool of the
brynhild-deno-plugin repository (`brynhild_deno_plugin/tools/python_sandbox.py`).

The tool supervises a long-lived sandboxed worker process.  We give a shallow
embedding: Python values that can occur in the tool-call input and in the
worker's JSON responses become an inductive `PyVal`; the supervisor's mutable
state (`self._proc`, `self._proc_memory_mb`) becomes `ToolState`; every
side-effecting step (spawn, kill, wait, pipe writes/reads) is recorded in an
explicit effect trace `List Eff`; the behaviour of the outside world (do the
runner script / vendored assets / deno binary exist, what does the bounded
read of the response line yield) is an oracle `World`.  The functions
`_clamp_int`, `_truncate`, `_force_kill_proc_locked`, `_kill_proc_locked`,
`_spawn_proc_locked`, `_call_runner` and `execute` are translated line by
line from the source.
-/

namespace Sandbox

/-- Python values as they appear in tool-call inputs and parsed JSON
responses.  Dictionary keys are themselves values (Python dicts are not
restricted to string keys). -/
inductive PyVal where
  | none
  | bool (b : Bool)
  | int (n : Int)
  | str (s : String)
  | list (xs : List PyVal)
  | dict (xs : List (PyVal × PyVal))

mutual

/-- Structural equality on `PyVal`, mirroring Python `==` on JSON-like data
(`True == 1` subtleties do not arise for the string keys used by the tool). -/
def PyVal.beq : PyVal → PyVal → Bool
  | .none, .none => true
  | .bool a, .bool b => a == b
  | .int a, .int b => a == b
  | .str a, .str b => a == b
  | .list a, .list b => beqList a b
  | .dict a, .dict b => beqPairs a b
  | _, _ => false

/-- Elementwise `PyVal.beq` on lists. -/
def PyVal.beqList : List PyVal → List PyVal → Bool
  | [], [] => true
  | a :: as', b :: bs' => PyVal.beq a b && beqList as' bs'
  | _, _ => false

/-- Elementwise `PyVal.beq` on key/value pair lists. -/
def PyVal.beqPairs : List (PyVal × PyVal) → List (PyVal × PyVal) → Bool
  | [], [] => true
  | a :: as', b :: bs' => PyVal.beq a.1 b.1 && PyVal.beq a.2 b.2 && beqPairs as' bs'
  | _, _ => false

end

instance : BEq PyVal := ⟨PyVal.beq⟩

/-- Python truthiness (`bool(x)`): `None`, `False`, `0`, `""` and empty
containers are falsy. -/
def truthy : PyVal → Bool
  | .none => false
  | .bool b => b
  | .int n => n != 0
  | .str s => s != ""
  | .list xs => !xs.isEmpty
  | .dict xs => !xs.isEmpty

/-- `isinstance(x, str)`. -/
def pyIsStr : PyVal → Bool
  | .str _ => true
  | _ => false

/-- `isinstance(x, int)`.  In Python `bool` is a subclass of `int`, so
booleans pass this check. -/
def pyIsInt : PyVal → Bool
  | .int _ => true
  | .bool _ => true
  | _ => false

/-- The integer value of a Python `int` (with `bool` as a subclass:
`True == 1`, `False == 0`); `0` on other values (unreached after an
`isinstance` check). -/
def pyToInt : PyVal → Int
  | .int n => n
  | .bool b => if b then 1 else 0
  | _ => 0

/-- `d.get(k)` on a dict with string key `k`: value of the first matching
entry, or `Option.none` when the key is absent. -/
def pyGet (d : List (PyVal × PyVal)) (k : String) : Option PyVal :=
  (d.find? (fun p => p.1 == PyVal.str k)).map (·.2)

/-- `d.get(k, default)`. -/
def pyGetD (d : List (PyVal × PyVal)) (k : String) (dflt : PyVal) : PyVal :=
  (pyGet d k).getD dflt

/-- Python `a or b`: `a` when truthy, else `b`. -/
def pyOr (a b : PyVal) : PyVal :=
  if truthy a then a else b

/-- Python string slicing `s[:n]` over code points. -/
def pyTake (s : String) (n : Nat) : String :=
  ⟨s.data.take n⟩

/-- Python `len(s)` (number of code points). -/
def pyLen (s : String) : Nat :=
  s.data.length

/-- Python `str.strip()` with no argument (whitespace on both ends; we cover
the ASCII whitespace characters recognised by `Char.isWhitespace`). -/
def pyStrip (s : String) : String :=
  ⟨((s.data.dropWhile Char.isWhitespace).reverse.dropWhile Char.isWhitespace).reverse⟩

/-- Python `str.rstrip()` (trailing whitespace removed). -/
def pyRstrip (s : String) : String :=
  ⟨(s.data.reverse.dropWhile Char.isWhitespace).reverse⟩

mutual

/-- Python `repr` on JSON-like values, used by `str` on containers.
String quoting is simplified to plain single quotes (CPython additionally
escapes special characters; no claim inspects nested container rendering). -/
def pyRepr : PyVal → String
  | .none => "None"
  | .bool b => if b then "True" else "False"
  | .int n => toString n
  | .str s => "'" ++ s ++ "'"
  | .list xs => "[" ++ pyReprList xs ++ "]"
  | .dict xs => "\x7b" ++ pyReprPairs xs ++ "\x7d"

/-- Comma-separated `pyRepr` of list elements. -/
def pyReprList : List PyVal → String
  | [] => ""
  | [x] => pyRepr x
  | x :: xs => pyRepr x ++ ", " ++ pyReprList xs

/-- Comma-separated `pyRepr` of dict entries. -/
def pyReprPairs : List (PyVal × PyVal) → String
  | [] => ""
  | [p] => pyRepr p.1 ++ ": " ++ pyRepr p.2
  | p :: ps => pyRepr p.1 ++ ": " ++ pyRepr p.2 ++ ", " ++ pyReprPairs ps

end

/-- Python `str(x)`: identity on strings, `repr`-style rendering otherwise. -/
def pyStr : PyVal → String
  | .str s => s
  | v => pyRepr v

/-- A worker process handle (`asyncio.subprocess.Process`): an identity, the
`returncode` attribute (`Option.none` while the process has not exited), and
the memory ceiling the process was spawned with (it is baked into the spawn
arguments via `--v8-flags=--max-old-space-size={memory_mb}`). -/
structure Handle where
  id : Nat
  returncode : Option Int
  mem : Int
deriving DecidableEq, Repr

/-- The supervisor's mutable state: `self._proc` and `self._proc_memory_mb`
(`Tool.__init__` sets both to `None`). -/
structure ToolState where
  proc : Option Handle
  procMemoryMb : Option Int
deriving DecidableEq, Repr

/-- The tool's startup configuration, read once in `Tool.__init__` from
static paths and environment variables. -/
structure ToolCfg where
  runnerPath : String
  vendorPath : String
  denoBin : String
  defaultTimeoutMs : Int
  defaultMemoryMb : Int
  maxOutputChars : Nat
  allowNet : Bool

/-- What the bounded read of one response line yields for this request:
`asyncio.TimeoutError`, end-of-stream (process died; with the bounded stderr
excerpt read for diagnostics), or a line (with its JSON-parse result — a
response dict on success, `Option.none` on `json.JSONDecodeError` — and the
bounded stderr excerpt read in the malformed case). -/
inductive ReadOutcome where
  | timeout
  | eof (stderrExcerpt : String)
  | line (raw : String) (parsed : Option (List (PyVal × PyVal))) (stderrExcerpt : String)

/-- Oracle for the environment of one `execute` call: existence of the runner
script, the vendored Pyodide directory and the deno binary (`shutil.which`),
the identity/returncode a fresh spawn would produce, and the outcome of the
single response-line read. -/
structure World where
  runnerExists : Bool
  vendorExists : Bool
  denoFound : Bool
  spawnId : Nat
  spawnReturncode : Option Int
  readOutcome : ReadOutcome

/-- The request payload written to the worker (the dict serialized by
`json.dumps` onto one line; we record it structurally). -/
structure Payload where
  code : String
  files : List (PyVal × PyVal)
  packages : List PyVal
  pythonpath : List PyVal

/-- Observable side effects of one `execute` call, in order:
`shutdownWrite` is the graceful-shutdown marker `{"shutdown": true}\n`
written to the worker's stdin, `closeStdin` the stdin close, `killProc` a
`proc.kill()`, `waitProc` a bounded `proc.wait()`, `spawn` a process
creation, `writeLine` the request line, `readLine` the bounded response-line
read, `readStderr` a bounded diagnostic read of the error stream. -/
inductive Eff where
  | shutdownWrite (id : Nat)
  | closeStdin (id : Nat)
  | killProc (id : Nat)
  | waitProc (id : Nat)
  | spawn (memoryMb : Int) (id : Nat)
  | writeLine (id : Nat) (payload : Payload)
  | readLine (id : Nat) (timeoutMs : Int)
  | readStderr (id : Nat)

/-- `max(lo, min(hi, value))` — the source's `_clamp_int`. -/
def _clamp_int (value lo hi : Int) : Int :=
  max lo (min hi value)

/-- `_force_kill_proc_locked`: if no worker, do nothing; otherwise clear
`self._proc` and `self._proc_memory_mb`, `proc.kill()` immediately (no
graceful-shutdown attempt), then a brief bounded `proc.wait()`. -/
def _force_kill_proc_locked (s : ToolState) : ToolState × List Eff :=
  match s.proc with
  | Option.none => (s, [])
  | Option.some h => (⟨Option.none, Option.none⟩, [Eff.killProc h.id, Eff.waitProc h.id])

/-- `_kill_proc_locked` (graceful): if no worker, do nothing; otherwise clear
the state, write the shutdown marker to stdin (bounded drain) and close
stdin, `proc.kill()` if `returncode` is still `None`, then a bounded
`proc.wait()`. -/
def _kill_proc_locked (s : ToolState) : ToolState × List Eff :=
  match s.proc with
  | Option.none => (s, [])
  | Option.some h =>
      (⟨Option.none, Option.none⟩,
        [Eff.shutdownWrite h.id, Eff.closeStdin h.id] ++
          (if h.returncode = Option.none then [Eff.killProc h.id] else []) ++
          [Eff.waitProc h.id])

/-- `_spawn_proc_locked`: create the worker process with the launch arguments
derived from `memory_mb`; the world supplies the new process's identity and
returncode. -/
def _spawn_proc_locked (w : World) (memoryMb : Int) : Handle × List Eff :=
  (⟨w.spawnId, w.spawnReturncode, memoryMb⟩, [Eff.spawn memoryMb w.spawnId])

/-- Result of `_call_runner` as seen by `execute`: a parsed response dict, or
one of the exceptions it raises (`FileNotFoundError` for launch problems,
`asyncio.TimeoutError` on read timeout, `RuntimeError` for a dead worker or a
non-JSON response line). -/
inductive CallResult where
  | ok (resp : List (PyVal × PyVal))
  | fileNotFound (msg : String)
  | timeoutErr
  | runtimeErr (msg : String)

/-- `_call_runner`: check runner script / vendored Pyodide / deno binary,
then under the lock: optional reset kill, respawn when there is no live
matching worker, write the request line, read one response line under the
timeout, and handle the three protocol failure classes. -/
def _call_runner (cfg : ToolCfg) (w : World) (s : ToolState) (payload : Payload)
    (timeout_ms memory_mb : Int) (reset : Bool) : ToolState × List Eff × CallResult :=
  if !w.runnerExists then
    (s, [], CallResult.fileNotFound ("Runner script not found: " ++ cfg.runnerPath))
  else if !w.vendorExists then
    (s, [], CallResult.fileNotFound
      ("Vendored Pyodide not found at " ++ cfg.vendorPath ++
        ". Run scripts/vendor-pyodide.sh to download."))
  else if !w.denoFound then
    (s, [], CallResult.fileNotFound
      ("deno executable not found (" ++ cfg.denoBin ++
        "). Install Deno and/or set BRYNHILD_PYODIDE_DENO."))
  else
    -- async with self._lock:
    let step1 : ToolState × List Eff := if reset then _kill_proc_locked s else (s, [])
    let s1 := step1.1
    let needSpawn : Bool :=
      match s1.proc with
      | Option.none => true
      | Option.some h => h.returncode != Option.none || s1.procMemoryMb != Option.some memory_mb
    let step2 : ToolState × List Eff :=
      if needSpawn then
        let k := _kill_proc_locked s1
        let sp := _spawn_proc_locked w memory_mb
        (⟨Option.some sp.1, Option.some memory_mb⟩, k.2 ++ sp.2)
      else (s1, [])
    let s2 := step2.1
    match s2.proc with
    | Option.none =>
        -- unreachable: mirrors `assert self._proc is not None`
        (s2, step1.2 ++ step2.2, CallResult.runtimeErr "assertion failed: self._proc is None")
    | Option.some proc =>
        let pre := step1.2 ++ step2.2 ++
          [Eff.writeLine proc.id payload, Eff.readLine proc.id timeout_ms]
        match w.readOutcome with
        | ReadOutcome.timeout =>
            let fk := _force_kill_proc_locked s2
            (fk.1, pre ++ fk.2, CallResult.timeoutErr)
        | ReadOutcome.eof errS =>
            let k := _kill_proc_locked s2
            (k.1, pre ++ [Eff.readStderr proc.id] ++ k.2,
              CallResult.runtimeErr
                ("Deno runner exited unexpectedly. stderr:\n" ++ pyStrip errS))
        | ReadOutcome.line raw parsed errS =>
            let text := pyStrip raw
            match parsed with
            | Option.some d => (s2, pre, CallResult.ok d)
            | Option.none =>
                (s2, pre ++ [Eff.readStderr proc.id],
                  CallResult.runtimeErr
                    ("Runner returned non-JSON output: " ++ pyTake text 200 ++
                      "\n\nstderr:\n" ++ pyTake errS 500))

/-- `_truncate`: return `s` unchanged when within the configured limit,
otherwise cut to the limit and append the truncation marker
`"\n… [truncated to N chars]"`. -/
def _truncate (cfg : ToolCfg) (s : String) : String :=
  if pyLen s ≤ cfg.maxOutputChars then s
  else pyTake s cfg.maxOutputChars ++
    ("\n… [truncated to " ++ toString cfg.maxOutputChars ++ " chars]")

/-- `str(x or "")` — how `execute` normalises the `stdout`/`stderr` fields of
the worker response. -/
def strOrEmpty (v : PyVal) : String :=
  pyStr (pyOr v (PyVal.str ""))

/-- JSON escaping of one character as in `json.dumps` (quote, backslash and
the common short escapes; other control characters are left as-is, a
simplification of the library behaviour no claim inspects). -/
def jsonEscapeChar (c : Char) : String :=
  if c = '"' then "\\\""
  else if c = '\\' then "\\\\"
  else if c = '\n' then "\\n"
  else if c = '\r' then "\\r"
  else if c = '\t' then "\\t"
  else String.singleton c

/-- A JSON string literal for `s`. -/
def jsonStrLit (s : String) : String :=
  "\"" ++ String.join (s.data.map jsonEscapeChar) ++ "\""

mutual

/-- `json.dumps(v, ensure_ascii=False)` on JSON-like values.  Non-string
dictionary keys are rendered via their Python string form (the tool never
produces them). -/
def jsonDump : PyVal → String
  | PyVal.none => "null"
  | PyVal.bool b => if b then "true" else "false"
  | PyVal.int n => toString n
  | PyVal.str s => jsonStrLit s
  | PyVal.list xs => "[" ++ jsonDumpList xs ++ "]"
  | PyVal.dict xs => "\x7b" ++ jsonDumpPairs xs ++ "\x7d"

/-- Comma-separated `jsonDump` of list elements. -/
def jsonDumpList : List PyVal → String
  | [] => ""
  | [x] => jsonDump x
  | x :: xs => jsonDump x ++ ", " ++ jsonDumpList xs

/-- Comma-separated `jsonDump` of dict entries. -/
def jsonDumpPairs : List (PyVal × PyVal) → String
  | [] => ""
  | [p] => jsonKey p.1 ++ ": " ++ jsonDump p.2
  | p :: ps => jsonKey p.1 ++ ": " ++ jsonDump p.2 ++ ", " ++ jsonDumpPairs ps

/-- A dictionary key rendered as a JSON string. -/
def jsonKey : PyVal → String
  | PyVal.str s => jsonStrLit s
  | PyVal.int n => jsonStrLit (toString n)
  | PyVal.bool b => jsonStrLit (if b then "true" else "false")
  | PyVal.none => jsonStrLit "null"
  | v => jsonStrLit (pyRepr v)

end

/-- The JSON-mode output of `execute`: `json.dumps` of the five-field
response dict, in insertion order. -/
def jsonDumpsResp (ok : Bool) (stdout stderr : String) (result error : PyVal) : String :=
  "\x7b\"ok\": " ++ (if ok then "true" else "false") ++
    ", \"stdout\": " ++ jsonStrLit stdout ++
    ", \"stderr\": " ++ jsonStrLit stderr ++
    ", \"result\": " ++ jsonDump result ++
    ", \"error\": " ++ jsonDump error ++ "\x7d"

/-- The brynhild `ToolResult` as constructed by this tool.  The `error`
field holds the value the source passes (the source does not coerce the
worker's `error` value to a string, so we keep it as a `PyVal`). -/
structure ToolResult where
  success : Bool
  output : String
  error : Option PyVal

/-- `Tool.execute`: validate the input fields (type mismatches rejected,
numeric bounds clamped), call `_call_runner`, map its exceptions to failed
`ToolResult`s, truncate the textual response fields, and format the result
in `json` or `text` mode. -/
def execute (cfg : ToolCfg) (w : World) (s : ToolState) (input : List (PyVal × PyVal)) :
    ToolState × List Eff × ToolResult :=
  let codeV := pyGetD input "code" PyVal.none
  if !(pyIsStr codeV) || pyStrip (pyStr codeV) == "" then
    (s, [], ⟨false, "", Option.some
      (PyVal.str "code is required and must be a non-empty string")⟩)
  else
  let tv := pyGetD input "timeout_ms" (PyVal.int cfg.defaultTimeoutMs)
  if !(pyIsInt tv) then
    (s, [], ⟨false, "", Option.some (PyVal.str "timeout_ms must be an integer")⟩)
  else
  let timeout_ms := _clamp_int (pyToInt tv) 1 600000
  let mv := pyGetD input "memory_mb" (PyVal.int cfg.defaultMemoryMb)
  if !(pyIsInt mv) then
    (s, [], ⟨false, "", Option.some (PyVal.str "memory_mb must be an integer")⟩)
  else
  let memory_mb := _clamp_int (pyToInt mv) 16 4096
  let reset := truthy (pyGetD input "reset" (PyVal.bool false))
  let fmt := pyGetD input "format" (PyVal.str "text")
  if !(fmt == PyVal.str "text" || fmt == PyVal.str "json") then
    (s, [], ⟨false, "", Option.some (PyVal.str "format must be 'text' or 'json'")⟩)
  else
  let filesV := pyOr (pyGetD input "files" PyVal.none) (PyVal.dict [])
  match filesV with
  | PyVal.dict fl =>
    if !(fl.all (fun p => pyIsStr p.1 && pyIsStr p.2)) then
      (s, [], ⟨false, "", Option.some
        (PyVal.str "files must map string paths to string contents")⟩)
    else
    let packagesV := pyOr (pyGetD input "packages" PyVal.none) (PyVal.list [])
    match packagesV with
    | PyVal.list ps =>
      if !(ps.all pyIsStr) then
        (s, [], ⟨false, "", Option.some (PyVal.str "packages must be an array of strings")⟩)
      else
      let pythonpathV := pyOr (pyGetD input "pythonpath" PyVal.none) (PyVal.list [])
      match pythonpathV with
      | PyVal.list pp =>
        if !(pp.all pyIsStr) then
          (s, [], ⟨false, "", Option.some
            (PyVal.str "pythonpath must be an array of strings")⟩)
        else
        let payload : Payload := ⟨pyStr codeV, fl, ps, pp⟩
        let call := _call_runner cfg w s payload timeout_ms memory_mb reset
        match call.2.2 with
        | CallResult.fileNotFound msg =>
            (call.1, call.2.1, ⟨false, "", Option.some (PyVal.str msg)⟩)
        | CallResult.timeoutErr =>
            (call.1, call.2.1, ⟨false, "", Option.some (PyVal.str
              ("Execution timed out after " ++ toString timeout_ms ++
                "ms (sandbox process was killed)."))⟩)
        | CallResult.runtimeErr msg =>
            (call.1, call.2.1, ⟨false, "", Option.some (PyVal.str msg)⟩)
        | CallResult.ok resp =>
            let stdout := _truncate cfg (strOrEmpty (pyGetD resp "stdout" PyVal.none))
            let stderr := _truncate cfg (strOrEmpty (pyGetD resp "stderr" PyVal.none))
            let result :=
              match pyGetD resp "result" PyVal.none with
              | PyVal.str rs => PyVal.str (_truncate cfg rs)
              | v => v
            let error := pyGetD resp "error" PyVal.none
            let okB := truthy (pyGetD resp "ok" PyVal.none)
            let errOut : Option PyVal :=
              if okB then Option.none
              else Option.some (pyOr error (PyVal.str "Python execution failed"))
            if fmt == PyVal.str "json" then
              (call.1, call.2.1,
                ⟨okB, jsonDumpsResp okB stdout stderr result error, errOut⟩)
            else
              let blocks :=
                (if stdout != "" then ["stdout:\n" ++ pyRstrip stdout] else []) ++
                (if stderr != "" then ["stderr:\n" ++ pyRstrip stderr] else []) ++
                (if result != PyVal.none then
                  ["result:\n" ++ pyRstrip (pyStr result)] else [])
              let blocks2 := if blocks.isEmpty then ["(no output)"] else blocks
              let combined := pyRstrip (String.intercalate "\n\n" blocks2) ++ "\n"
              (call.1, call.2.1, ⟨okB, combined, errOut⟩)
      | _ =>
          (s, [], ⟨false, "", Option.some
            (PyVal.str "pythonpath must be an array of strings")⟩)
    | _ =>
        (s, [], ⟨false, "", Option.some (PyVal.str "packages must be an array of strings")⟩)
  | _ =>
      (s, [], ⟨false, "", Option.some
        (PyVal.str "files must be an object (mapping path -> content)")⟩)

/-- The state `Tool.__init__` sets up: no worker, no recorded ceiling. -/
def initState : ToolState := ⟨Option.none, Option.none⟩

/-- A configuration with the source's environment-variable defaults
(`30000` ms timeout, `512` MB ceiling, `12000` output chars). -/
def cfgD : ToolCfg := ⟨"runner.ts", "vendor/pyodide", "deno", 30000, 512, 12000, false⟩

/-- A world where the launch prerequisites exist, a fresh spawn yields
process 1 (still running), and the response-line read yields `ro`. -/
def worldOf (ro : ReadOutcome) : World := ⟨true, true, true, 1, Option.none, ro⟩

/-- A minimal successful worker response: `{"ok": true}`. -/
def respOkTrue : List (PyVal × PyVal) := [(PyVal.str "ok", PyVal.bool true)]

/-- A `files` mapping with 101 entries (the tests' file-count limit is 100). -/
def files101 : List (PyVal × PyVal) :=
  (List.range 101).map (fun i =>
    (PyVal.str ("file" ++ toString i ++ ".txt"), PyVal.str "content"))

/-- The tool-call input of `tests/test_python_sandbox.py::test_file_count_limit`:
`{"code": "1", "files": {"file0.txt": "content", …, "file100.txt": "content"}}`. -/
def input101 : List (PyVal × PyVal) :=
  [(PyVal.str "code", PyVal.str "1"), (PyVal.str "files", PyVal.dict files101)]

/-- C10: an input whose `code` field is absent, not a string, or a
whitespace-only string is rejected by `execute` with the fixed validation
message, with the supervisor state unchanged and no effects at all (no
worker interaction). -/
theorem blank_code_rejected (cfg : ToolCfg) (w : World) (s : ToolState)
    (input : List (PyVal × PyVal)) (v : PyVal)
    (hv : pyGetD input "code" PyVal.none = v)
    (hbad : pyIsStr v = false ∨ ∃ cs, v = PyVal.str cs ∧ pyStrip cs = "") :
    execute cfg w s input =
      (s, [], ⟨false, "",
        Option.some (PyVal.str "code is required and must be a non-empty string")⟩) := by
  rcases hbad with h | ⟨cs, rfl, hcs⟩
  · simp [execute, hv, h]
  · simp [execute, hv, pyIsStr, pyStr, hcs]

/-- C10 witness: `{"code": "  \n "}` (whitespace-only) is rejected without
worker interaction. -/
theorem blank_code_rejected_witness :
    execute cfgD (worldOf ReadOutcome.timeout) initState
        [(PyVal.str "code", PyVal.str "  \n ")] =
      (initState, [], ⟨false, "",
        Option.some (PyVal.str "code is required and must be a non-empty string")⟩) :=
  blank_code_rejected cfgD (worldOf ReadOutcome.timeout) initState
    [(PyVal.str "code", PyVal.str "  \n ")] (PyVal.str "  \n ") rfl
    (Or.inr ⟨"  \n ", rfl, by decide⟩)

/-- C8: when the runner script, the vendored Pyodide directory, or the deno
binary cannot be located, `execute` returns a failed `ToolResult` carrying
the corresponding `FileNotFoundError` message, with no effects (in
particular no spawn attempt) and the supervisor state unchanged. -/
theorem launch_failure_before_spawn (cfg : ToolCfg) (w : World) (s : ToolState) (c : String)
    (hc : pyStrip c ≠ "") :
    (w.runnerExists = false →
      execute cfg w s [(PyVal.str "code", PyVal.str c)] =
        (s, [], ⟨false, "", Option.some (PyVal.str
          ("Runner script not found: " ++ cfg.runnerPath))⟩)) ∧
    (w.runnerExists = true → w.vendorExists = false →
      execute cfg w s [(PyVal.str "code", PyVal.str c)] =
        (s, [], ⟨false, "", Option.some (PyVal.str
          ("Vendored Pyodide not found at " ++ cfg.vendorPath ++
            ". Run scripts/vendor-pyodide.sh to download."))⟩)) ∧
    (w.runnerExists = true → w.vendorExists = true → w.denoFound = false →
      execute cfg w s [(PyVal.str "code", PyVal.str c)] =
        (s, [], ⟨false, "", Option.some (PyVal.str
          ("deno executable not found (" ++ cfg.denoBin ++
            "). Install Deno and/or set BRYNHILD_PYODIDE_DENO."))⟩)) := by
  have hcode : pyGetD [(PyVal.str "code", PyVal.str c)] "code" PyVal.none = PyVal.str c := rfl
  have htv : ∀ d, pyGetD [(PyVal.str "code", PyVal.str c)] "timeout_ms" d = d := fun _ => rfl
  have hmv : ∀ d, pyGetD [(PyVal.str "code", PyVal.str c)] "memory_mb" d = d := fun _ => rfl
  have hrs : ∀ d, pyGetD [(PyVal.str "code", PyVal.str c)] "reset" d = d := fun _ => rfl
  have hfm : ∀ d, pyGetD [(PyVal.str "code", PyVal.str c)] "format" d = d := fun _ => rfl
  have hfl : ∀ d, pyGetD [(PyVal.str "code", PyVal.str c)] "files" d = d := fun _ => rfl
  have hpk : ∀ d, pyGetD [(PyVal.str "code", PyVal.str c)] "packages" d = d := fun _ => rfl
  have hpp : ∀ d, pyGetD [(PyVal.str "code", PyVal.str c)] "pythonpath" d = d := fun _ => rfl
  have hb1 : (PyVal.str "text" == PyVal.str "text") = true := rfl
  refine ⟨?_, ?_, ?_⟩ <;> intros <;>
    simp [execute, _call_runner, hcode, htv, hmv, hrs, hfm, hfl, hpk, hpp, hb1,
      pyIsStr, pyIsInt, pyStr, pyOr, truthy, hc, *]

/-- C8 witness: with the runner script missing, the call fails with the
launch message, no effects, and an unchanged state (here: a live worker with
ceiling 512 stays current). -/
theorem launch_failure_before_spawn_witness :
    execute cfgD ⟨false, true, true, 1, Option.none, ReadOutcome.timeout⟩
        ⟨Option.some ⟨7, Option.none, 512⟩, Option.some 512⟩
        [(PyVal.str "code", PyVal.str "1")] =
      (⟨Option.some ⟨7, Option.none, 512⟩, Option.some 512⟩, [],
        ⟨false, "", Option.some (PyVal.str ("Runner script not found: " ++ cfgD.runnerPath))⟩) :=
  (launch_failure_before_spawn cfgD ⟨false, true, true, 1, Option.none, ReadOutcome.timeout⟩
    ⟨Option.some ⟨7, Option.none, 512⟩, Option.some 512⟩ "1" (by decide)).1 rfl

/-- A configuration whose output-character limit is 5 (the limit is
environment-configurable via `BRYNHILD_PYODIDE_MAX_OUTPUT_CHARS`). -/
def cfg5 : ToolCfg := ⟨"runner.ts", "vendor/pyodide", "deno", 30000, 512, 5, false⟩

/-- C5 counterexample: with the configured maximum at 5 characters, the
worker field `"abcdef"` is returned as a 30-character string — the
truncation marker is appended after cutting to the limit, so the returned
string exceeds the configured maximum, refuting "the string returned by the
tool never exceeds the configured maximum character count". -/
theorem truncate_exceeds_limit_cex :
    pyLen (_truncate cfg5 "abcdef") = 30 ∧
    ¬ pyLen (_truncate cfg5 "abcdef") ≤ cfg5.maxOutputChars := by decide

/-- C5 (amended): a textual field at or below the configured maximum is
returned unchanged; a longer field is cut to exactly the maximum and the
marker stating the applied limit is appended, so the returned string's
length is the maximum plus the marker's length (it exceeds the configured
maximum by exactly the marker length). -/
theorem truncate_marker_and_bounds (cfg : ToolCfg) (s : String) :
    (pyLen s ≤ cfg.maxOutputChars → _truncate cfg s = s) ∧
    (cfg.maxOutputChars < pyLen s →
      _truncate cfg s =
        pyTake s cfg.maxOutputChars ++
          ("\n… [truncated to " ++ toString cfg.maxOutputChars ++ " chars]") ∧
      pyLen (_truncate cfg s) =
        cfg.maxOutputChars +
          pyLen ("\n… [truncated to " ++ toString cfg.maxOutputChars ++ " chars]")) := by
  constructor
  · intro h
    simp [_truncate, h]
  · intro h
    have hnot : ¬ pyLen s ≤ cfg.maxOutputChars := not_le.mpr h
    have h1 : ∀ a b : String, pyLen (a ++ b) = pyLen a + pyLen b := fun a b => by
      simp [pyLen, String.data_append]
    have h2 : pyLen (pyTake s cfg.maxOutputChars) = cfg.maxOutputChars := by
      have hsl : s.length = s.data.length := rfl
      simp only [pyLen, pyTake] at h ⊢
      simp [List.length_take]
      omega
    have key : _truncate cfg s =
        pyTake s cfg.maxOutputChars ++
          ("\n… [truncated to " ++ toString cfg.maxOutputChars ++ " chars]") := by
      simp [_truncate, hnot]
    refine ⟨key, ?_⟩
    rw [key, h1, h2]

/-- C5 witness: `"abc"` passes through unchanged under the 5-character
limit, while `"abcdef"` is cut to 5 characters with the marker appended. -/
theorem truncate_marker_and_bounds_witness :
    _truncate cfg5 "abc" = "abc" ∧
    _truncate cfg5 "abcdef" =
      pyTake "abcdef" cfg5.maxOutputChars ++
        ("\n… [truncated to " ++ toString cfg5.maxOutputChars ++ " chars]") :=
  ⟨(truncate_marker_and_bounds cfg5 "abc").1 (by decide),
    ((truncate_marker_and_bounds cfg5 "abcdef").2 (by decide)).1⟩

/-- C4: the input of `test_file_count_limit` — a `files` mapping with 101
entries (the documented limit is 100) — passes `execute`'s validation
untouched: the worker is spawned, the oversized mapping is written to it in
the request payload, and the worker's response is returned as a success.
There is no entry-count or byte-budget rejection before worker interaction,
contradicting the claim, the spec and the repository's own tests. -/
theorem oversized_files_reach_worker :
    execute cfgD (worldOf (ReadOutcome.line "resp" (Option.some respOkTrue) "")) initState
        input101 =
      (⟨Option.some ⟨1, Option.none, 512⟩, Option.some 512⟩,
        [Eff.spawn 512 1, Eff.writeLine 1 ⟨"1", files101, [], []⟩, Eff.readLine 1 30000],
        ⟨true, "(no output)\n", Option.none⟩) := rfl

/-- C3 counterexample: a live worker (pid 7, ceiling 512) receives a request
and answers with a non-JSON line.  After the call the supervisor still holds
that same worker — the state is not `NoWorker` — and the effect trace shows
no `killProc`: the claim's "the supervisor kills the process and moves its
state to NoWorker" is false at this input. -/
theorem protocol_error_keeps_worker_cex :
    (execute cfgD (worldOf (ReadOutcome.line "garbage" Option.none "err!"))
        ⟨Option.some ⟨7, Option.none, 512⟩, Option.some 512⟩
        [(PyVal.str "code", PyVal.str "x")]).1.proc ≠ Option.none ∧
    execute cfgD (worldOf (ReadOutcome.line "garbage" Option.none "err!"))
        ⟨Option.some ⟨7, Option.none, 512⟩, Option.some 512⟩
        [(PyVal.str "code", PyVal.str "x")] =
      (⟨Option.some ⟨7, Option.none, 512⟩, Option.some 512⟩,
        [Eff.writeLine 7 ⟨"x", [], [], []⟩, Eff.readLine 7 30000, Eff.readStderr 7],
        ⟨false, "", Option.some (PyVal.str
          ("Runner returned non-JSON output: garbage\n\nstderr:\nerr!"))⟩) :=
  ⟨by decide, rfl⟩

/-- C3 (amended): when the response line does not parse as JSON, the
surfaced error carries a 200-character excerpt of the raw line and a
500-character excerpt of the worker's error stream, but the worker is NOT
discarded: no kill is issued and the supervisor keeps the same handle and
recorded ceiling (here: a live worker matching the request's memory
configuration, no reset). -/
theorem protocol_error_excerpts_worker_retained
    (cfg : ToolCfg) (w : World) (hd : Handle) (c raw errS : String)
    (hr : w.runnerExists = true) (hv : w.vendorExists = true) (hdn : w.denoFound = true)
    (hline : w.readOutcome = ReadOutcome.line raw Option.none errS)
    (hc : pyStrip c ≠ "") (hrc : hd.returncode = Option.none) :
    execute cfg w ⟨Option.some hd, Option.some (_clamp_int cfg.defaultMemoryMb 16 4096)⟩
        [(PyVal.str "code", PyVal.str c)] =
      (⟨Option.some hd, Option.some (_clamp_int cfg.defaultMemoryMb 16 4096)⟩,
        [Eff.writeLine hd.id ⟨c, [], [], []⟩,
          Eff.readLine hd.id (_clamp_int cfg.defaultTimeoutMs 1 600000),
          Eff.readStderr hd.id],
        ⟨false, "", Option.some (PyVal.str
          ("Runner returned non-JSON output: " ++ pyTake (pyStrip raw) 200 ++
            "\n\nstderr:\n" ++ pyTake errS 500))⟩) := by
  have hcode : pyGetD [(PyVal.str "code", PyVal.str c)] "code" PyVal.none = PyVal.str c := rfl
  have htv : ∀ d, pyGetD [(PyVal.str "code", PyVal.str c)] "timeout_ms" d = d := fun _ => rfl
  have hmv : ∀ d, pyGetD [(PyVal.str "code", PyVal.str c)] "memory_mb" d = d := fun _ => rfl
  have hrs : ∀ d, pyGetD [(PyVal.str "code", PyVal.str c)] "reset" d = d := fun _ => rfl
  have hfm : ∀ d, pyGetD [(PyVal.str "code", PyVal.str c)] "format" d = d := fun _ => rfl
  have hfl : ∀ d, pyGetD [(PyVal.str "code", PyVal.str c)] "files" d = d := fun _ => rfl
  have hpk : ∀ d, pyGetD [(PyVal.str "code", PyVal.str c)] "packages" d = d := fun _ => rfl
  have hpp : ∀ d, pyGetD [(PyVal.str "code", PyVal.str c)] "pythonpath" d = d := fun _ => rfl
  have hb1 : (PyVal.str "text" == PyVal.str "text") = true := rfl
  simp [execute, _call_runner, hcode, htv, hmv, hrs, hfm, hfl, hpk, hpp, hb1,
    pyIsStr, pyIsInt, pyStr, pyToInt, pyOr, truthy, hc, hr, hv, hdn, hline, hrc]

/-- C3 amended-claim witness: worker pid 3 answers `"garbage"`, the error
carries both excerpts, and the worker stays current. -/
theorem protocol_error_excerpts_worker_retained_witness :
    execute cfgD (worldOf (ReadOutcome.line "garbage" Option.none "boom"))
        ⟨Option.some ⟨3, Option.none, 512⟩,
          Option.some (_clamp_int cfgD.defaultMemoryMb 16 4096)⟩
        [(PyVal.str "code", PyVal.str "x")] =
      (⟨Option.some ⟨3, Option.none, 512⟩,
          Option.some (_clamp_int cfgD.defaultMemoryMb 16 4096)⟩,
        [Eff.writeLine 3 ⟨"x", [], [], []⟩,
          Eff.readLine 3 (_clamp_int cfgD.defaultTimeoutMs 1 600000),
          Eff.readStderr 3],
        ⟨false, "", Option.some (PyVal.str
          ("Runner returned non-JSON output: " ++ pyTake (pyStrip "garbage") 200 ++
            "\n\nstderr:\n" ++ pyTake "boom" 500))⟩) :=
  protocol_error_excerpts_worker_retained cfgD
    (worldOf (ReadOutcome.line "garbage" Option.none "boom"))
    ⟨3, Option.none, 512⟩ "x" "garbage" "boom" rfl rfl rfl rfl (by decide) rfl

/-- C1: when the response read times out, the supervisor force-kills the
worker — the effects after the bounded read are exactly `killProc` then a
bounded `waitProc`, with no shutdown marker and no drain — the state is
cleared to no-worker, and the returned failure's error text states the
clamped `timeout_ms` value in milliseconds. -/
theorem timeout_forces_kill_and_clears_state
    (cfg : ToolCfg) (w : World) (s : ToolState) (c : String) (t m : Int)
    (hr : w.runnerExists = true) (hv : w.vendorExists = true) (hdn : w.denoFound = true)
    (hto : w.readOutcome = ReadOutcome.timeout)
    (hc : pyStrip c ≠ "") :
    (execute cfg w s [(PyVal.str "code", PyVal.str c), (PyVal.str "timeout_ms", PyVal.int t),
        (PyVal.str "memory_mb", PyVal.int m)]).1 = ⟨Option.none, Option.none⟩ ∧
    (execute cfg w s [(PyVal.str "code", PyVal.str c), (PyVal.str "timeout_ms", PyVal.int t),
        (PyVal.str "memory_mb", PyVal.int m)]).2.2 =
      ⟨false, "", Option.some (PyVal.str
        ("Execution timed out after " ++ toString (_clamp_int t 1 600000) ++
          "ms (sandbox process was killed)."))⟩ ∧
    ∃ (pre : List Eff) (i : Nat),
      (execute cfg w s [(PyVal.str "code", PyVal.str c), (PyVal.str "timeout_ms", PyVal.int t),
          (PyVal.str "memory_mb", PyVal.int m)]).2.1 =
        pre ++ [Eff.writeLine i ⟨c, [], [], []⟩, Eff.readLine i (_clamp_int t 1 600000),
          Eff.killProc i, Eff.waitProc i] := by
  have hcode : pyGetD [(PyVal.str "code", PyVal.str c), (PyVal.str "timeout_ms", PyVal.int t),
      (PyVal.str "memory_mb", PyVal.int m)] "code" PyVal.none = PyVal.str c := rfl
  have htv : ∀ d, pyGetD [(PyVal.str "code", PyVal.str c), (PyVal.str "timeout_ms", PyVal.int t),
      (PyVal.str "memory_mb", PyVal.int m)] "timeout_ms" d = PyVal.int t := fun _ => rfl
  have hmv : ∀ d, pyGetD [(PyVal.str "code", PyVal.str c), (PyVal.str "timeout_ms", PyVal.int t),
      (PyVal.str "memory_mb", PyVal.int m)] "memory_mb" d = PyVal.int m := fun _ => rfl
  have hrs : ∀ d, pyGetD [(PyVal.str "code", PyVal.str c), (PyVal.str "timeout_ms", PyVal.int t),
      (PyVal.str "memory_mb", PyVal.int m)] "reset" d = d := fun _ => rfl
  have hfm : ∀ d, pyGetD [(PyVal.str "code", PyVal.str c), (PyVal.str "timeout_ms", PyVal.int t),
      (PyVal.str "memory_mb", PyVal.int m)] "format" d = d := fun _ => rfl
  have hfl : ∀ d, pyGetD [(PyVal.str "code", PyVal.str c), (PyVal.str "timeout_ms", PyVal.int t),
      (PyVal.str "memory_mb", PyVal.int m)] "files" d = d := fun _ => rfl
  have hpk : ∀ d, pyGetD [(PyVal.str "code", PyVal.str c), (PyVal.str "timeout_ms", PyVal.int t),
      (PyVal.str "memory_mb", PyVal.int m)] "packages" d = d := fun _ => rfl
  have hpp : ∀ d, pyGetD [(PyVal.str "code", PyVal.str c), (PyVal.str "timeout_ms", PyVal.int t),
      (PyVal.str "memory_mb", PyVal.int m)] "pythonpath" d = d := fun _ => rfl
  have hb1 : (PyVal.str "text" == PyVal.str "text") = true := rfl
  obtain ⟨sp, sm⟩ := s
  cases sp with
  | none =>
      refine ⟨?_, ?_, [Eff.spawn (_clamp_int m 16 4096) w.spawnId], w.spawnId, ?_⟩ <;>
        simp [execute, _call_runner, _force_kill_proc_locked, _spawn_proc_locked,
          _kill_proc_locked, hcode, htv, hmv, hrs, hfm, hfl, hpk, hpp, hb1,
          pyIsStr, pyIsInt, pyStr, pyToInt, pyOr, truthy, hc, hr, hv, hdn, hto]
  | some h =>
      cases hns : (h.returncode != Option.none || sm != Option.some (_clamp_int m 16 4096)) with
      | false =>
          refine ⟨?_, ?_, [], h.id, ?_⟩ <;>
            simp [execute, _call_runner, _force_kill_proc_locked, _spawn_proc_locked,
              _kill_proc_locked, hcode, htv, hmv, hrs, hfm, hfl, hpk, hpp, hb1,
              pyIsStr, pyIsInt, pyStr, pyToInt, pyOr, truthy, hc, hr, hv, hdn, hto, hns]
      | true =>
          refine ⟨?_, ?_,
            [Eff.shutdownWrite h.id, Eff.closeStdin h.id] ++
              (if h.returncode = Option.none then [Eff.killProc h.id] else []) ++
              [Eff.waitProc h.id, Eff.spawn (_clamp_int m 16 4096) w.spawnId],
            w.spawnId, ?_⟩ <;>
            simp [execute, _call_runner, _force_kill_proc_locked, _spawn_proc_locked,
              _kill_proc_locked, hcode, htv, hmv, hrs, hfm, hfl, hpk, hpp, hb1,
              pyIsStr, pyIsInt, pyStr, pyToInt, pyOr, truthy, hc, hr, hv, hdn, hto, hns]

/-- C1 witness: `{"code": "while True: pass", "timeout_ms": 1000,
"memory_mb": 512}` on a fresh supervisor: timeout clears the state, the
error states `1000ms`, and the post-read effects are exactly kill + wait. -/
theorem timeout_forces_kill_and_clears_state_witness :
    (execute cfgD (worldOf ReadOutcome.timeout) initState
        [(PyVal.str "code", PyVal.str "while True: pass"),
          (PyVal.str "timeout_ms", PyVal.int 1000),
          (PyVal.str "memory_mb", PyVal.int 512)]).1 = ⟨Option.none, Option.none⟩ ∧
    (execute cfgD (worldOf ReadOutcome.timeout) initState
        [(PyVal.str "code", PyVal.str "while True: pass"),
          (PyVal.str "timeout_ms", PyVal.int 1000),
          (PyVal.str "memory_mb", PyVal.int 512)]).2.2 =
      ⟨false, "", Option.some (PyVal.str
        ("Execution timed out after " ++ toString (_clamp_int 1000 1 600000) ++
          "ms (sandbox process was killed)."))⟩ ∧
    ∃ (pre : List Eff) (i : Nat),
      (execute cfgD (worldOf ReadOutcome.timeout) initState
          [(PyVal.str "code", PyVal.str "while True: pass"),
            (PyVal.str "timeout_ms", PyVal.int 1000),
            (PyVal.str "memory_mb", PyVal.int 512)]).2.1 =
        pre ++ [Eff.writeLine i ⟨"while True: pass", [], [], []⟩,
          Eff.readLine i (_clamp_int 1000 1 600000),
          Eff.killProc i, Eff.waitProc i] :=
  timeout_forces_kill_and_clears_state cfgD (worldOf ReadOutcome.timeout) initState
    "while True: pass" 1000 512 rfl rfl rfl rfl (by decide)

/-- The coupling of `self._proc` and `self._proc_memory_mb`: both are unset
together, and when a worker is present the recorded ceiling equals the
memory the process was spawned with. -/
def stateInv (s : ToolState) : Prop :=
  (s.proc = Option.none ↔ s.procMemoryMb = Option.none) ∧
  ∀ h mm, s.proc = Option.some h → s.procMemoryMb = Option.some mm → h.mem = mm

/-- `_call_runner` preserves the handle/ceiling coupling. -/
lemma stateInv_call (cfg : ToolCfg) (w : World) (s : ToolState) (p : Payload)
    (t m : Int) (r : Bool) (hs : stateInv s) :
    stateInv (_call_runner cfg w s p t m r).1 := by
  rcases w with ⟨re, ve, de, sid, src, ro⟩
  cases re
  · simpa [_call_runner] using hs
  cases ve
  · simpa [_call_runner] using hs
  cases de
  · simpa [_call_runner] using hs
  rcases s with ⟨sp, sm⟩
  cases r <;> rcases sp with _ | h <;> cases ro
  all_goals try (rename_i raw parsed errS; cases parsed)
  all_goals
    simp [_call_runner, _kill_proc_locked, _force_kill_proc_locked, _spawn_proc_locked,
      stateInv]
  all_goals (repeat' split) <;> simp_all [stateInv]
  all_goals (rename_i hq hnt; subst hq; rfl)

/-- C9: the handle/ceiling coupling holds initially (`Tool.__init__`) and is
kept by every `execute` call, whatever the input, environment, and protocol
outcome. -/
theorem proc_memory_invariant :
    stateInv initState ∧
    ∀ (cfg : ToolCfg) (w : World) (s : ToolState) (input : List (PyVal × PyVal)),
      stateInv s → stateInv (execute cfg w s input).1 := by
  refine ⟨by simp [stateInv, initState], ?_⟩
  intro cfg w s input hs
  simp only [execute]
  by_cases h1 : (!pyIsStr (pyGetD input "code" PyVal.none) ||
      pyStrip (pyStr (pyGetD input "code" PyVal.none)) == "") = true
  · rw [if_pos h1]; exact hs
  rw [if_neg h1]
  by_cases h2 : (!pyIsInt (pyGetD input "timeout_ms" (PyVal.int cfg.defaultTimeoutMs))) = true
  · rw [if_pos h2]; exact hs
  rw [if_neg h2]
  by_cases h3 : (!pyIsInt (pyGetD input "memory_mb" (PyVal.int cfg.defaultMemoryMb))) = true
  · rw [if_pos h3]; exact hs
  rw [if_neg h3]
  by_cases h4 : (!(pyGetD input "format" (PyVal.str "text") == PyVal.str "text" ||
      pyGetD input "format" (PyVal.str "text") == PyVal.str "json")) = true
  · rw [if_pos h4]; exact hs
  rw [if_neg h4]
  cases hfv : pyOr (pyGetD input "files" PyVal.none) (PyVal.dict [])
  all_goals try exact hs
  rename_i fl
  dsimp only []
  by_cases h5 : (!fl.all fun p => pyIsStr p.1 && pyIsStr p.2) = true
  · rw [if_pos h5]; exact hs
  rw [if_neg h5]
  cases hpv : pyOr (pyGetD input "packages" PyVal.none) (PyVal.list [])
  all_goals try exact hs
  rename_i ps
  dsimp only []
  by_cases h6 : (!ps.all pyIsStr) = true
  · rw [if_pos h6]; exact hs
  rw [if_neg h6]
  cases hqv : pyOr (pyGetD input "pythonpath" PyVal.none) (PyVal.list [])
  all_goals try exact hs
  rename_i pp
  dsimp only []
  by_cases h7 : (!pp.all pyIsStr) = true
  · rw [if_pos h7]; exact hs
  rw [if_neg h7]
  split <;> first
    | exact stateInv_call _ _ _ _ _ _ _ hs
    | (split <;> exact stateInv_call _ _ _ _ _ _ _ hs)

/-- C9 witness: starting from `__init__`'s state, a timed-out call leaves
the coupling intact. -/
theorem proc_memory_invariant_witness :
    stateInv (execute cfgD (worldOf ReadOutcome.timeout) initState
      [(PyVal.str "code", PyVal.str "1")]).1 :=
  proc_memory_invariant.2 cfgD (worldOf ReadOutcome.timeout) initState
    [(PyVal.str "code", PyVal.str "1")] (by simp [stateInv, initState])

set_option maxHeartbeats 1600000 in
/-- C2: a new worker is spawned exactly when reset was requested, no worker
exists, the worker has exited, or its recorded ceiling differs from the
request's clamped `memory_mb`; otherwise the request line goes to the
existing handle and a successful cycle leaves the state unchanged; after any
successful cycle the recorded ceiling equals the clamped `memory_mb`. -/
theorem spawn_iff_no_live_matching_worker
    (cfg : ToolCfg) (w : World) (s : ToolState) (c : String) (m : Int) (r : Bool)
    (hr : w.runnerExists = true) (hv : w.vendorExists = true) (hdn : w.denoFound = true)
    (hc : pyStrip c ≠ "") :
    (Eff.spawn (_clamp_int m 16 4096) w.spawnId ∈
        (execute cfg w s [(PyVal.str "code", PyVal.str c), (PyVal.str "memory_mb", PyVal.int m),
          (PyVal.str "reset", PyVal.bool r)]).2.1 ↔
      (r = true ∨ s.proc = Option.none ∨
        (∃ h, s.proc = Option.some h ∧ h.returncode ≠ Option.none) ∨
        s.procMemoryMb ≠ Option.some (_clamp_int m 16 4096))) ∧
    (∀ h, r = false → s.proc = Option.some h → h.returncode = Option.none →
      s.procMemoryMb = Option.some (_clamp_int m 16 4096) →
      Eff.writeLine h.id ⟨c, [], [], []⟩ ∈
        (execute cfg w s [(PyVal.str "code", PyVal.str c), (PyVal.str "memory_mb", PyVal.int m),
          (PyVal.str "reset", PyVal.bool r)]).2.1 ∧
      ∀ raw resp es, w.readOutcome = ReadOutcome.line raw (Option.some resp) es →
        (execute cfg w s [(PyVal.str "code", PyVal.str c), (PyVal.str "memory_mb", PyVal.int m),
          (PyVal.str "reset", PyVal.bool r)]).1 = s) ∧
    (∀ raw resp es, w.readOutcome = ReadOutcome.line raw (Option.some resp) es →
      (execute cfg w s [(PyVal.str "code", PyVal.str c), (PyVal.str "memory_mb", PyVal.int m),
          (PyVal.str "reset", PyVal.bool r)]).1.procMemoryMb =
        Option.some (_clamp_int m 16 4096)) := by
  have hcode : pyGetD [(PyVal.str "code", PyVal.str c), (PyVal.str "memory_mb", PyVal.int m),
      (PyVal.str "reset", PyVal.bool r)] "code" PyVal.none = PyVal.str c := rfl
  have htv : ∀ d, pyGetD [(PyVal.str "code", PyVal.str c), (PyVal.str "memory_mb", PyVal.int m),
      (PyVal.str "reset", PyVal.bool r)] "timeout_ms" d = d := fun _ => rfl
  have hmv : ∀ d, pyGetD [(PyVal.str "code", PyVal.str c), (PyVal.str "memory_mb", PyVal.int m),
      (PyVal.str "reset", PyVal.bool r)] "memory_mb" d = PyVal.int m := fun _ => rfl
  have hrs : ∀ d, pyGetD [(PyVal.str "code", PyVal.str c), (PyVal.str "memory_mb", PyVal.int m),
      (PyVal.str "reset", PyVal.bool r)] "reset" d = PyVal.bool r := fun _ => rfl
  have hfm : ∀ d, pyGetD [(PyVal.str "code", PyVal.str c), (PyVal.str "memory_mb", PyVal.int m),
      (PyVal.str "reset", PyVal.bool r)] "format" d = d := fun _ => rfl
  have hfl : ∀ d, pyGetD [(PyVal.str "code", PyVal.str c), (PyVal.str "memory_mb", PyVal.int m),
      (PyVal.str "reset", PyVal.bool r)] "files" d = d := fun _ => rfl
  have hpk : ∀ d, pyGetD [(PyVal.str "code", PyVal.str c), (PyVal.str "memory_mb", PyVal.int m),
      (PyVal.str "reset", PyVal.bool r)] "packages" d = d := fun _ => rfl
  have hpp : ∀ d, pyGetD [(PyVal.str "code", PyVal.str c), (PyVal.str "memory_mb", PyVal.int m),
      (PyVal.str "reset", PyVal.bool r)] "pythonpath" d = d := fun _ => rfl
  have hb1 : (PyVal.str "text" == PyVal.str "text") = true := rfl
  have hb2 : (PyVal.str "text" == PyVal.str "json") = false := rfl
  rcases w with ⟨re, ve, de, sid, src, ro⟩
  subst hr; subst hv; subst hdn
  rcases s with ⟨sp, sm⟩
  cases r <;> rcases sp with _ | h
  case false.some =>
    cases hns : (h.returncode != Option.none || sm != Option.some (_clamp_int m 16 4096)) <;>
      cases ro
    all_goals try (rename_i raw parsed errS; cases parsed)
    all_goals refine ⟨?_, ?_, ?_⟩
    all_goals intros
    all_goals
      simp_all [execute, _call_runner, _kill_proc_locked, _force_kill_proc_locked,
        _spawn_proc_locked, pyIsStr, pyIsInt, pyToInt, pyStr, pyOr, truthy]
  all_goals cases ro
  all_goals try (rename_i raw parsed errS; cases parsed)
  all_goals refine ⟨?_, ?_, ?_⟩
  all_goals intros
  all_goals
    simp_all [execute, _call_runner, _kill_proc_locked, _force_kill_proc_locked,
      _spawn_proc_locked, pyIsStr, pyIsInt, pyToInt, pyStr, pyOr, truthy]

/-- C2 witness: on a fresh supervisor (no worker), a call with
`memory_mb = 512` spawns a worker. -/
theorem spawn_iff_no_live_matching_worker_witness :
    Eff.spawn (_clamp_int 512 16 4096)
        (worldOf (ReadOutcome.line "r" (Option.some respOkTrue) "")).spawnId ∈
      (execute cfgD (worldOf (ReadOutcome.line "r" (Option.some respOkTrue) "")) initState
        [(PyVal.str "code", PyVal.str "x=42"), (PyVal.str "memory_mb", PyVal.int 512),
          (PyVal.str "reset", PyVal.bool false)]).2.1 :=
  (spawn_iff_no_live_matching_worker cfgD
    (worldOf (ReadOutcome.line "r" (Option.some respOkTrue) "")) initState "x=42" 512 false
    rfl rfl rfl (by decide)).1.mpr (Or.inr (Or.inl rfl))

/-- C6: integer `timeout_ms` / `memory_mb` are clamped — the spawn carries
`max(16, min(4096, memory_mb))` and the bounded read `max(1, min(600000,
timeout_ms))` — while a non-integer `timeout_ms` or `memory_mb` is rejected
with a validation failure, no effects, and unchanged state. -/
theorem bounds_clamped_types_rejected
    (cfg : ToolCfg) (w : World) (c : String) (t m : Int)
    (hr : w.runnerExists = true) (hv : w.vendorExists = true) (hdn : w.denoFound = true)
    (hc : pyStrip c ≠ "") :
    (∀ raw resp es, w.readOutcome = ReadOutcome.line raw (Option.some resp) es →
      (execute cfg w initState [(PyVal.str "code", PyVal.str c),
          (PyVal.str "timeout_ms", PyVal.int t), (PyVal.str "memory_mb", PyVal.int m)]).2.1 =
        [Eff.spawn (max 16 (min 4096 m)) w.spawnId,
          Eff.writeLine w.spawnId ⟨c, [], [], []⟩,
          Eff.readLine w.spawnId (max 1 (min 600000 t))]) ∧
    (∀ (s : ToolState) (input : List (PyVal × PyVal)) (v : PyVal),
      pyGetD input "code" PyVal.none = PyVal.str c →
      pyGetD input "timeout_ms" (PyVal.int cfg.defaultTimeoutMs) = v →
      pyIsInt v = false →
      execute cfg w s input =
        (s, [], ⟨false, "", Option.some (PyVal.str "timeout_ms must be an integer")⟩)) ∧
    (∀ (s : ToolState) (input : List (PyVal × PyVal)) (v : PyVal),
      pyGetD input "code" PyVal.none = PyVal.str c →
      pyIsInt (pyGetD input "timeout_ms" (PyVal.int cfg.defaultTimeoutMs)) = true →
      pyGetD input "memory_mb" (PyVal.int cfg.defaultMemoryMb) = v →
      pyIsInt v = false →
      execute cfg w s input =
        (s, [], ⟨false, "", Option.some (PyVal.str "memory_mb must be an integer")⟩)) := by
  refine ⟨?_, ?_, ?_⟩
  · intro raw resp es hline
    have hcode : pyGetD [(PyVal.str "code", PyVal.str c), (PyVal.str "timeout_ms", PyVal.int t),
        (PyVal.str "memory_mb", PyVal.int m)] "code" PyVal.none = PyVal.str c := rfl
    have htv : ∀ d, pyGetD [(PyVal.str "code", PyVal.str c), (PyVal.str "timeout_ms", PyVal.int t),
        (PyVal.str "memory_mb", PyVal.int m)] "timeout_ms" d = PyVal.int t := fun _ => rfl
    have hmv : ∀ d, pyGetD [(PyVal.str "code", PyVal.str c), (PyVal.str "timeout_ms", PyVal.int t),
        (PyVal.str "memory_mb", PyVal.int m)] "memory_mb" d = PyVal.int m := fun _ => rfl
    have hrs : ∀ d, pyGetD [(PyVal.str "code", PyVal.str c), (PyVal.str "timeout_ms", PyVal.int t),
        (PyVal.str "memory_mb", PyVal.int m)] "reset" d = d := fun _ => rfl
    have hfm : ∀ d, pyGetD [(PyVal.str "code", PyVal.str c), (PyVal.str "timeout_ms", PyVal.int t),
        (PyVal.str "memory_mb", PyVal.int m)] "format" d = d := fun _ => rfl
    have hfl : ∀ d, pyGetD [(PyVal.str "code", PyVal.str c), (PyVal.str "timeout_ms", PyVal.int t),
        (PyVal.str "memory_mb", PyVal.int m)] "files" d = d := fun _ => rfl
    have hpk : ∀ d, pyGetD [(PyVal.str "code", PyVal.str c), (PyVal.str "timeout_ms", PyVal.int t),
        (PyVal.str "memory_mb", PyVal.int m)] "packages" d = d := fun _ => rfl
    have hpp : ∀ d, pyGetD [(PyVal.str "code", PyVal.str c), (PyVal.str "timeout_ms", PyVal.int t),
        (PyVal.str "memory_mb", PyVal.int m)] "pythonpath" d = d := fun _ => rfl
    have hb1 : (PyVal.str "text" == PyVal.str "text") = true := rfl
    have hb2 : (PyVal.str "text" == PyVal.str "json") = false := rfl
    simp [execute, _call_runner, _kill_proc_locked, _spawn_proc_locked, initState,
      hcode, htv, hmv, hrs, hfm, hfl, hpk, hpp, hb1, hb2, _clamp_int,
      pyIsStr, pyIsInt, pyToInt, pyStr, pyOr, truthy, hc, hr, hv, hdn, hline]
  · intro s input v h1 h2 h3
    simp [execute, h1, h2, h3, pyIsStr, pyStr, hc]
  · intro s input v h1 h2 h3 h4
    simp [execute, h1, h2, h3, h4, pyIsStr, pyStr, hc]

/-- C6 witness: `timeout_ms = 999999` is clamped to 600000 and
`memory_mb = 8` to 16 in the effects actually performed, while a string
`timeout_ms` is rejected outright. -/
theorem bounds_clamped_types_rejected_witness :
    (execute cfgD (worldOf (ReadOutcome.line "r" (Option.some respOkTrue) "")) initState
        [(PyVal.str "code", PyVal.str "1"), (PyVal.str "timeout_ms", PyVal.int 999999),
          (PyVal.str "memory_mb", PyVal.int 8)]).2.1 =
      [Eff.spawn (max 16 (min 4096 8))
          (worldOf (ReadOutcome.line "r" (Option.some respOkTrue) "")).spawnId,
        Eff.writeLine (worldOf (ReadOutcome.line "r" (Option.some respOkTrue) "")).spawnId
          ⟨"1", [], [], []⟩,
        Eff.readLine (worldOf (ReadOutcome.line "r" (Option.some respOkTrue) "")).spawnId
          (max 1 (min 600000 999999))] ∧
    execute cfgD (worldOf (ReadOutcome.line "r" (Option.some respOkTrue) "")) initState
        [(PyVal.str "code", PyVal.str "1"), (PyVal.str "timeout_ms", PyVal.str "NaN")] =
      (initState, [], ⟨false, "", Option.some (PyVal.str "timeout_ms must be an integer")⟩) :=
  ⟨(bounds_clamped_types_rejected cfgD
      (worldOf (ReadOutcome.line "r" (Option.some respOkTrue) "")) "1" 999999 8
      rfl rfl rfl (by decide)).1 "r" respOkTrue "" rfl,
   (bounds_clamped_types_rejected cfgD
      (worldOf (ReadOutcome.line "r" (Option.some respOkTrue) "")) "1" 0 0
      rfl rfl rfl (by decide)).2.1 initState
      [(PyVal.str "code", PyVal.str "1"), (PyVal.str "timeout_ms", PyVal.str "NaN")]
      (PyVal.str "NaN") rfl rfl rfl⟩

/-- Helper for C7: `error or "Python execution failed"` on a protocol-shaped
error field (text or null) is always a non-empty string: the worker's text
when non-empty, the fixed fallback otherwise. -/
lemma pyOr_error_str (v : PyVal)
    (hshape : v = PyVal.none ∨ ∃ e, v = PyVal.str e) :
    ∃ es', pyOr v (PyVal.str "Python execution failed") = PyVal.str es' ∧ es' ≠ "" ∧
      (v = PyVal.str es' ∨ es' = "Python execution failed") := by
  rcases hshape with rfl | ⟨e, rfl⟩
  · exact ⟨"Python execution failed", by simp [pyOr, truthy], by decide, Or.inr rfl⟩
  · by_cases he : e = ""
    · subst he
      exact ⟨"Python execution failed", by simp [pyOr, truthy], by decide, Or.inr rfl⟩
    · exact ⟨e, by simp [pyOr, truthy, he], he, Or.inl rfl⟩

set_option maxHeartbeats 1600000 in
/-- C7: for every worker response reaching the formatting stage whose `ok`
field is falsy, and whose `error` field has the protocol shape (text or
null/absent), the `ToolResult` has `success = false` and a non-empty error
string — the worker's error text, or the fixed fallback — in both `text`
and `json` output formats. -/
theorem not_ok_implies_error_string
    (cfg : ToolCfg) (w : World) (s : ToolState) (c : String) (fmtv : PyVal)
    (raw es : String) (resp : List (PyVal × PyVal))
    (hr : w.runnerExists = true) (hv : w.vendorExists = true) (hdn : w.denoFound = true)
    (hline : w.readOutcome = ReadOutcome.line raw (Option.some resp) es)
    (hc : pyStrip c ≠ "")
    (hfmt : fmtv = PyVal.str "text" ∨ fmtv = PyVal.str "json")
    (hok : truthy (pyGetD resp "ok" PyVal.none) = false)
    (hshape : pyGetD resp "error" PyVal.none = PyVal.none ∨
      ∃ e, pyGetD resp "error" PyVal.none = PyVal.str e) :
    (execute cfg w s [(PyVal.str "code", PyVal.str c),
        (PyVal.str "format", fmtv)]).2.2.success = false ∧
    ∃ es', (execute cfg w s [(PyVal.str "code", PyVal.str c),
          (PyVal.str "format", fmtv)]).2.2.error = Option.some (PyVal.str es') ∧
      es' ≠ "" ∧
      (pyGetD resp "error" PyVal.none = PyVal.str es' ∨ es' = "Python execution failed") := by
  obtain ⟨es', h1, h2, h3⟩ := pyOr_error_str (pyGetD resp "error" PyVal.none) hshape
  have hcode : ∀ fv : PyVal, pyGetD [(PyVal.str "code", PyVal.str c),
      (PyVal.str "format", fv)] "code" PyVal.none = PyVal.str c := fun _ => rfl
  have htv : ∀ (fv d : PyVal), pyGetD [(PyVal.str "code", PyVal.str c),
      (PyVal.str "format", fv)] "timeout_ms" d = d := fun _ _ => rfl
  have hmv : ∀ (fv d : PyVal), pyGetD [(PyVal.str "code", PyVal.str c),
      (PyVal.str "format", fv)] "memory_mb" d = d := fun _ _ => rfl
  have hrs : ∀ (fv d : PyVal), pyGetD [(PyVal.str "code", PyVal.str c),
      (PyVal.str "format", fv)] "reset" d = d := fun _ _ => rfl
  have hfm : ∀ (fv d : PyVal), pyGetD [(PyVal.str "code", PyVal.str c),
      (PyVal.str "format", fv)] "format" d = fv := fun _ _ => rfl
  have hfl : ∀ (fv d : PyVal), pyGetD [(PyVal.str "code", PyVal.str c),
      (PyVal.str "format", fv)] "files" d = d := fun _ _ => rfl
  have hpk : ∀ (fv d : PyVal), pyGetD [(PyVal.str "code", PyVal.str c),
      (PyVal.str "format", fv)] "packages" d = d := fun _ _ => rfl
  have hpp : ∀ (fv d : PyVal), pyGetD [(PyVal.str "code", PyVal.str c),
      (PyVal.str "format", fv)] "pythonpath" d = d := fun _ _ => rfl
  have ho1 : pyOr PyVal.none (PyVal.dict []) = PyVal.dict [] := rfl
  have ho2 : pyOr PyVal.none (PyVal.list []) = PyVal.list [] := rfl
  have htr : truthy (PyVal.bool false) = false := rfl
  have hb1 : (PyVal.str "text" == PyVal.str "text") = true := rfl
  have hb2 : (PyVal.str "text" == PyVal.str "json") = false := rfl
  have hb3 : (PyVal.str "json" == PyVal.str "text") = false := rfl
  have hb4 : (PyVal.str "json" == PyVal.str "json") = true := rfl
  rcases w with ⟨re, ve, de, sid, src, ro⟩
  subst hr; subst hv; subst hdn
  dsimp only [] at hline
  subst hline
  rcases s with ⟨sp, sm⟩
  rcases hfmt with rfl | rfl <;> rcases sp with _ | h
  all_goals try (cases hns : (h.returncode != Option.none ||
    sm != Option.some (_clamp_int cfg.defaultMemoryMb 16 4096)))
  all_goals refine ⟨?_, es', ?_, h2, h3⟩
  all_goals
    simp [execute, _call_runner, _kill_proc_locked, _force_kill_proc_locked,
      _spawn_proc_locked, pyIsStr, pyIsInt, pyToInt, pyStr, *]

/-- C7 witness: the worker answers `{"ok": false}` (no error text); in text
format the result is `success = false` with the fallback error string. -/
theorem not_ok_implies_error_string_witness :
    (execute cfgD (worldOf (ReadOutcome.line "r"
        (Option.some [(PyVal.str "ok", PyVal.bool false)]) "")) initState
        [(PyVal.str "code", PyVal.str "1/0"),
          (PyVal.str "format", PyVal.str "text")]).2.2.success = false ∧
    ∃ es', (execute cfgD (worldOf (ReadOutcome.line "r"
          (Option.some [(PyVal.str "ok", PyVal.bool false)]) "")) initState
          [(PyVal.str "code", PyVal.str "1/0"),
            (PyVal.str "format", PyVal.str "text")]).2.2.error =
        Option.some (PyVal.str es') ∧ es' ≠ "" ∧
      (pyGetD [(PyVal.str "ok", PyVal.bool false)] "error" PyVal.none = PyVal.str es' ∨
        es' = "Python execution failed") :=
  not_ok_implies_error_string cfgD
    (worldOf (ReadOutcome.line "r" (Option.some [(PyVal.str "ok", PyVal.bool false)]) ""))
    initState "1/0" (PyVal.str "text") "r" "" [(PyVal.str "ok", PyVal.bool false)]
    rfl rfl rfl rfl (by decide) (Or.inl rfl) rfl (Or.inl rfl)

end Sandbox
